import Mathlib

/-!
# Ensemble evolution experiment: embedding of `EnsembleExp.h` and `native/ensemble.cc`

The development follows `source/EnsembleExp.h` (constants, the `SignalGPAgent`
genome holder, the `EnsembleExp` constructor and `Run`) and
`source/native/ensemble.cc` (`main`).

Conventions of the embedding.

* `size_t` values are natural numbers below `2 ^ 64`; the only `size_t`
  arithmetic in the sources (the round cap) is written with explicit wrap-around.
* A scalar member that has not been written yet holds an indeterminate value.
  Such a member is `none`; `some v` is a member holding `v`.  Copying a member
  copies `none` to `none`.
* `double` values are only copied by the sources, never computed with, so a
  `double` is carried as its 64-bit pattern.
* `std::string::back()` on an empty string has no defined result; operations
  that reach it yield `none`.
-/

/-! ## Constants (`@constants`) -/

/-- Modulus of `size_t` arithmetic. -/
def SIZE_MOD : Nat := 2 ^ 64

/-- Product of two `size_t` values. -/
def size_mul (a b : Nat) : Nat := (a * b) % SIZE_MOD

/-- Difference of two `size_t` values, wrapping below zero. -/
def size_sub (a b : Nat) : Nat := (a % SIZE_MOD + SIZE_MOD - b % SIZE_MOD) % SIZE_MOD

def TESTCASE_FILE__DARK_ID : Int := 1
def TESTCASE_FILE__LIGHT_ID : Int := -1
def TESTCASE_FILE__OPEN_ID : Int := 0

def SGP__TAG_WIDTH : Nat := 16

def TRAIT_ID__MOVE : Nat := 0
def TRAIT_ID__DONE : Nat := 1

def AGENT_VIEW__ILLEGAL_ID : Int := -1
def AGENT_VIEW__OPEN_ID : Int := 0
def AGENT_VIEW__SELF_ID : Int := 1
def AGENT_VIEW__OPP_ID : Int := 2

def SELECTION_METHOD_ID__TOURNAMENT : Nat := 0
def SELECTION_METHOD_ID__LEXICASE : Nat := 1

def OTHELLO_BOARD_WIDTH : Nat := 8
def OTHELLO_BOARD_NUM_CELLS : Nat := size_mul OTHELLO_BOARD_WIDTH OTHELLO_BOARD_WIDTH

/-- The three row markers of the test-case file, in declaration order. -/
def TESTCASE_FILE__IDS : List Int :=
  [TESTCASE_FILE__DARK_ID, TESTCASE_FILE__LIGHT_ID, TESTCASE_FILE__OPEN_ID]

/-- The codes of the per-cell board view of an agent, in declaration order. -/
def AGENT_VIEW__IDS : List Int :=
  [AGENT_VIEW__ILLEGAL_ID, AGENT_VIEW__OPEN_ID, AGENT_VIEW__SELF_ID, AGENT_VIEW__OPP_ID]

/-! ## Scalars and strings -/

/-- A `double`, carried as its bit pattern. -/
structure Double where
  bits : Nat
  deriving DecidableEq, Repr

/-- Last character of a `std::string`; `none` on the empty string. -/
def string_back (s : String) : Option Char := s.data.getLast?

/-! ## Programs and `SignalGPAgent` -/

/-- Modelled from the spec: the instruction type belongs to the event-driven
hardware library, which is not among the sources.  An instruction has an
operation id, integer arguments and a bit tag. -/
structure SGP__inst_t where
  id : Nat
  args : List Int
  affinity : List Bool
  deriving DecidableEq, Repr

/-- Modelled from the spec: a function of a program (library type, not among
the sources): a tag used for event matching and a linear instruction sequence. -/
structure SGP__function_t where
  affinity : List Bool
  inst_seq : List SGP__inst_t
  deriving DecidableEq, Repr

/-- Modelled from the spec: a program (library type, not among the sources) is
an ordered collection of functions; it is a value, copied element by element. -/
structure SGP__program_t where
  program : List SGP__function_t
  deriving DecidableEq, Repr

/-- The genome holder `EnsembleExp::SignalGPAgent`. -/
structure SignalGPAgent where
  program : SGP__program_t
  agent_id : Option Nat
  deriving DecidableEq, Repr

namespace SignalGPAgent

/-- The member `size_t GetID() const`: the value read and the agent afterwards. -/
def GetID (a : SignalGPAgent) : Option Nat × SignalGPAgent := (a.agent_id, a)

/-- The member `void SetID(size_t id)`. -/
def SetID (a : SignalGPAgent) (id : Nat) : SignalGPAgent := { a with agent_id := some id }

/-- The member `SGP__program_t &GetGenome()`. -/
def GetGenome (a : SignalGPAgent) : SGP__program_t := a.program

/-- The constructor `SignalGPAgent(const SGP__program_t &_p)`: only `program`
appears in the member list, `agent_id` is not written. -/
def fromProgram (_p : SGP__program_t) : SignalGPAgent :=
  { program := _p, agent_id := none }

/-- The constructor `SignalGPAgent(const SignalGPAgent &&in)`: the argument is
const, so both members are copied from it. -/
def moveFrom (inp : SignalGPAgent) : SignalGPAgent :=
  { program := inp.program, agent_id := inp.agent_id }

/-- The constructor `SignalGPAgent(const SignalGPAgent &in)`. -/
def copyFrom (inp : SignalGPAgent) : SignalGPAgent :=
  { program := inp.program, agent_id := inp.agent_id }

end SignalGPAgent

/-! ### Agents as objects

Agents live at addresses; an address is an index into the store.  Constructing
an agent from another one places the new object at a fresh address. -/

/-- The agents currently alive, by address. -/
abbrev AgentStore := List SignalGPAgent

namespace AgentStore

/-- Copy-construct a new agent from the one at address `src`; the result is the
store afterwards and the address of the new agent. -/
def construct_copy (st : AgentStore) (src : Nat) : Option (AgentStore × Nat) :=
  match st[src]? with
  | none => none
  | some a => some (st ++ [SignalGPAgent.copyFrom a], st.length)

/-- Move-construct a new agent from the one at address `src`. -/
def construct_move (st : AgentStore) (src : Nat) : Option (AgentStore × Nat) :=
  match st[src]? with
  | none => none
  | some a => some (st ++ [SignalGPAgent.moveFrom a], st.length)

/-- Call `SetID(id)` on the agent at address `addr`. -/
def call_SetID (st : AgentStore) (addr : Nat) (id : Nat) : AgentStore :=
  match st[addr]? with
  | none => st
  | some a => st.set addr (a.SetID id)

end AgentStore

/-! ## The configuration provider -/

/-- Modelled from the spec: `ensemble-config.h` is not among the sources.  The
configuration provider exposes one accessor per named option; each accessor
hands out a scalar of the type of the member it is stored in, and the output
directory as a string. -/
structure EnsembleConfig where
  RUN_MODE : Nat
  RANDOM_SEED : Int
  POP_SIZE : Nat
  GENERATIONS : Nat
  EVAL_TIME : Nat
  SELECTION_METHOD : Nat
  ELITE_SELECT__ELITE_CNT : Nat
  TOURNAMENT_SIZE : Nat
  OTHELLO_HW_BOARDS : Nat
  SGP_FUNCTION_LEN : Nat
  SGP_FUNCTION_CNT : Nat
  SGP_PROG_MAX_LENGTH : Nat
  SGP_HW_MAX_CORES : Nat
  SGP_HW_MAX_CALL_DEPTH : Nat
  SGP_HW_MIN_BIND_THRESH : Double
  SGP_PROG_MAX_ARG_VAL : Int
  SGP_PER_BIT__TAG_BFLIP_RATE : Double
  SGP_PER_INST__SUB_RATE : Double
  SGP_VARIABLE_LENGTH : Bool
  SGP_PER_INST__INS_RATE : Double
  SGP_PER_INST__DEL_RATE : Double
  SGP_PER_FUNC__FUNC_DUP_RATE : Double
  SGP_PER_FUNC__FUNC_DEL_RATE : Double
  SYSTEMATICS_INTERVAL : Nat
  FITNESS_INTERVAL : Nat
  POP_SNAPSHOT_INTERVAL : Nat
  DATA_DIRECTORY : String
  deriving DecidableEq, Repr

/-! ## `EnsembleExp` -/

/-- The data members of `EnsembleExp`.  The owning pointers are kept as what
they were created from (`none` is the null pointer): `random` is the seed of
the generator, `othello_dreamware` the argument of the dreamware, `sgp_world`
the name of the world; the two libraries and the evaluation hardware carry no
argument. -/
structure EnsembleExp where
  RUN_MODE : Option Nat
  RANDOM_SEED : Option Int
  POP_SIZE : Option Nat
  GENERATIONS : Option Nat
  EVAL_TIME : Option Nat
  SELECTION_METHOD : Option Nat
  ELITE_SELECT__ELITE_CNT : Option Nat
  TOURNAMENT_SIZE : Option Nat
  OTHELLO_HW_BOARDS : Option Nat
  SGP_FUNCTION_LEN : Option Nat
  SGP_FUNCTION_CNT : Option Nat
  SGP_PROG_MAX_LENGTH : Option Nat
  SGP_HW_MAX_CORES : Option Nat
  SGP_HW_MAX_CALL_DEPTH : Option Nat
  SGP_HW_MIN_BIND_THRESH : Option Double
  SGP_PROG_MAX_ARG_VAL : Option Int
  SGP_PER_BIT__TAG_BFLIP_RATE : Option Double
  SGP_PER_INST__SUB_RATE : Option Double
  SGP_VARIABLE_LENGTH : Option Bool
  SGP_PER_INST__INS_RATE : Option Double
  SGP_PER_INST__DEL_RATE : Option Double
  SGP_PER_FUNC__FUNC_DUP_RATE : Option Double
  SGP_PER_FUNC__FUNC_DEL_RATE : Option Double
  SYSTEMATICS_INTERVAL : Option Nat
  FITNESS_INTERVAL : Option Nat
  POP_SNAPSHOT_INTERVAL : Option Nat
  DATA_DIRECTORY : String
  random : Option (Option Int)
  update : Nat
  eval_time : Nat
  OTHELLO_MAX_ROUND_CNT : Nat
  best_agent_id : Nat
  othello_dreamware : Option Nat
  sgp_world : Option String
  sgp_inst_lib : Option Unit
  sgp_event_lib : Option Unit
  sgp_eval_hw : Option Unit
  deriving DecidableEq, Repr

namespace EnsembleExp

/-- The object on entry to the constructor body: the member list has set
`update`, `eval_time`, `OTHELLO_MAX_ROUND_CNT` and `best_agent_id` to 0, the
string is empty, the pointers are null and no configuration member has been
written. -/
def entry : EnsembleExp :=
  { RUN_MODE := none, RANDOM_SEED := none, POP_SIZE := none, GENERATIONS := none,
    EVAL_TIME := none, SELECTION_METHOD := none, ELITE_SELECT__ELITE_CNT := none,
    TOURNAMENT_SIZE := none, OTHELLO_HW_BOARDS := none, SGP_FUNCTION_LEN := none,
    SGP_FUNCTION_CNT := none, SGP_PROG_MAX_LENGTH := none, SGP_HW_MAX_CORES := none,
    SGP_HW_MAX_CALL_DEPTH := none, SGP_HW_MIN_BIND_THRESH := none,
    SGP_PROG_MAX_ARG_VAL := none, SGP_PER_BIT__TAG_BFLIP_RATE := none,
    SGP_PER_INST__SUB_RATE := none, SGP_VARIABLE_LENGTH := none,
    SGP_PER_INST__INS_RATE := none, SGP_PER_INST__DEL_RATE := none,
    SGP_PER_FUNC__FUNC_DUP_RATE := none, SGP_PER_FUNC__FUNC_DEL_RATE := none,
    SYSTEMATICS_INTERVAL := none, FITNESS_INTERVAL := none,
    POP_SNAPSHOT_INTERVAL := none, DATA_DIRECTORY := "",
    random := none,
    update := 0, eval_time := 0, OTHELLO_MAX_ROUND_CNT := 0, best_agent_id := 0,
    othello_dreamware := none, sgp_world := none, sgp_inst_lib := none,
    sgp_event_lib := none, sgp_eval_hw := none }

/-- The statement `if (DATA_DIRECTORY.back() != '/') DATA_DIRECTORY += '/';`
as a function of the string it acts on. -/
def close_directory (d : String) : Option String :=
  match string_back d with
  | none => none
  | some c => if c != '/' then some (d.push '/') else some d

/-- The constructor `EnsembleExp(const EnsembleConfig &config)`, statement by
statement.  The call of `mkdir`, whose result the source discards, acts on the
file system only and is left out. -/
def construct (config : EnsembleConfig) : Option EnsembleExp :=
  let e : EnsembleExp := entry
  -- Localize configs.
  let e : EnsembleExp := { e with RUN_MODE := some config.RUN_MODE }
  let e : EnsembleExp := { e with RANDOM_SEED := some config.RANDOM_SEED }
  let e : EnsembleExp := { e with POP_SIZE := some config.POP_SIZE }
  let e : EnsembleExp := { e with GENERATIONS := some config.GENERATIONS }
  let e : EnsembleExp := { e with EVAL_TIME := some config.EVAL_TIME }
  let e : EnsembleExp := { e with SELECTION_METHOD := some config.SELECTION_METHOD }
  let e : EnsembleExp := { e with ELITE_SELECT__ELITE_CNT := some config.ELITE_SELECT__ELITE_CNT }
  let e : EnsembleExp := { e with TOURNAMENT_SIZE := some config.TOURNAMENT_SIZE }
  let e : EnsembleExp := { e with OTHELLO_HW_BOARDS := some config.OTHELLO_HW_BOARDS }
  let e : EnsembleExp := { e with SGP_FUNCTION_LEN := some config.SGP_FUNCTION_LEN }
  let e : EnsembleExp := { e with SGP_FUNCTION_CNT := some config.SGP_FUNCTION_CNT }
  let e : EnsembleExp := { e with SGP_PROG_MAX_LENGTH := some config.SGP_PROG_MAX_LENGTH }
  let e : EnsembleExp := { e with SGP_HW_MAX_CORES := some config.SGP_HW_MAX_CORES }
  let e : EnsembleExp := { e with SGP_HW_MAX_CALL_DEPTH := some config.SGP_HW_MAX_CALL_DEPTH }
  let e : EnsembleExp := { e with SGP_HW_MIN_BIND_THRESH := some config.SGP_HW_MIN_BIND_THRESH }
  let e : EnsembleExp := { e with SGP_PROG_MAX_ARG_VAL := some config.SGP_PROG_MAX_ARG_VAL }
  let e : EnsembleExp := { e with SGP_PER_BIT__TAG_BFLIP_RATE := some config.SGP_PER_BIT__TAG_BFLIP_RATE }
  let e : EnsembleExp := { e with SGP_PER_INST__SUB_RATE := some config.SGP_PER_INST__SUB_RATE }
  let e : EnsembleExp := { e with SGP_VARIABLE_LENGTH := some config.SGP_VARIABLE_LENGTH }
  let e : EnsembleExp := { e with SGP_PER_INST__INS_RATE := some config.SGP_PER_INST__INS_RATE }
  let e : EnsembleExp := { e with SGP_PER_INST__DEL_RATE := some config.SGP_PER_INST__DEL_RATE }
  let e : EnsembleExp := { e with SGP_PER_FUNC__FUNC_DUP_RATE := some config.SGP_PER_FUNC__FUNC_DUP_RATE }
  let e : EnsembleExp := { e with SGP_PER_FUNC__FUNC_DEL_RATE := some config.SGP_PER_FUNC__FUNC_DEL_RATE }
  let e : EnsembleExp := { e with FITNESS_INTERVAL := some config.FITNESS_INTERVAL }
  let e : EnsembleExp := { e with POP_SNAPSHOT_INTERVAL := some config.POP_SNAPSHOT_INTERVAL }
  let e : EnsembleExp := { e with DATA_DIRECTORY := config.DATA_DIRECTORY }
  -- Make a random number generator.
  let e : EnsembleExp := { e with random := some e.RANDOM_SEED }
  -- What is the maximum number of rounds for an othello game?
  let e : EnsembleExp := { e with
    OTHELLO_MAX_ROUND_CNT := size_sub (size_mul OTHELLO_BOARD_WIDTH OTHELLO_BOARD_WIDTH) 4 }
  -- Configure the dreamware!
  let e : EnsembleExp := { e with othello_dreamware := some 1 }
  -- Make the world(s)!
  let e : EnsembleExp := { e with sgp_world := some "SGP-Ensemble-World" }
  -- Configure instruction/event libraries.
  let e : EnsembleExp := { e with sgp_inst_lib := some () }
  let e : EnsembleExp := { e with sgp_event_lib := some () }
  -- Make data directory.
  match close_directory e.DATA_DIRECTORY with
  | none => none
  | some d => some { e with DATA_DIRECTORY := d }

/-- The member `void Run()`.  The generation loop of the source is commented
out; what remains reads the processor clock twice and prints the elapsed time.
`clock_start` and `clock_end` are the two readings; the result is the object
afterwards and the tick count `base_tot_time` that is printed. -/
def Run (e : EnsembleExp) (clock_start clock_end : Int) : EnsembleExp × Int :=
  let base_start_time := clock_start
  let base_tot_time := clock_end - base_start_time
  (e, base_tot_time)

end EnsembleExp

/-! ## `main` of the native build -/

namespace ensemble

/-- How `main` ends: by a call of `exit`, or by reaching the end of its body
after writing the configuration banner. -/
inductive Outcome where
  | exited (code : Int)
  | completed
  deriving DecidableEq, Repr

/-- The process exit status of an outcome; reaching the end of `main` without
a return statement yields 0. -/
def Outcome.status : Outcome → Int
  | .exited code => code
  | .completed => 0

/-- The function `main` as a function of what `ArgManager::ProcessConfigOptions`
and `ArgManager::TestUnknown` return.  `TestUnknown` is consulted only when
`ProcessConfigOptions` did not return false. -/
def main (ProcessConfigOptions TestUnknown : Bool) : Outcome :=
  if ProcessConfigOptions == false then .exited 0
  else if TestUnknown == false then .exited 0
  else .completed

end ensemble

/-! ## Sample inputs -/

/-- A configuration with an output directory that lacks the closing slash. -/
def sampleConfig : EnsembleConfig :=
  { RUN_MODE := 0, RANDOM_SEED := -1, POP_SIZE := 1000, GENERATIONS := 100,
    EVAL_TIME := 256, SELECTION_METHOD := 1, ELITE_SELECT__ELITE_CNT := 1,
    TOURNAMENT_SIZE := 4, OTHELLO_HW_BOARDS := 2, SGP_FUNCTION_LEN := 50,
    SGP_FUNCTION_CNT := 4, SGP_PROG_MAX_LENGTH := 200, SGP_HW_MAX_CORES := 16,
    SGP_HW_MAX_CALL_DEPTH := 128, SGP_HW_MIN_BIND_THRESH := ⟨0⟩,
    SGP_PROG_MAX_ARG_VAL := 16, SGP_PER_BIT__TAG_BFLIP_RATE := ⟨1⟩,
    SGP_PER_INST__SUB_RATE := ⟨2⟩, SGP_VARIABLE_LENGTH := true,
    SGP_PER_INST__INS_RATE := ⟨3⟩, SGP_PER_INST__DEL_RATE := ⟨4⟩,
    SGP_PER_FUNC__FUNC_DUP_RATE := ⟨5⟩, SGP_PER_FUNC__FUNC_DEL_RATE := ⟨6⟩,
    SYSTEMATICS_INTERVAL := 100, FITNESS_INTERVAL := 10,
    POP_SNAPSHOT_INTERVAL := 50, DATA_DIRECTORY := "out" }

/-- A one-function program. -/
def sampleProgram : SGP__program_t :=
  ⟨[⟨[true, false], [⟨3, [1, 2, 3], [false, true]⟩]⟩]⟩

/-- An agent whose identifier has been set. -/
def sampleAgent : SignalGPAgent := (SignalGPAgent.fromProgram sampleProgram).SetID 7

/-! ## Auxiliary facts -/

theorem string_back_eq_none_iff (s : String) : string_back s = none ↔ s = "" := by
  unfold string_back
  rw [List.getLast?_eq_none_iff]
  constructor
  · intro h
    exact String.ext h
  · intro h
    rw [h]

theorem string_push_slash (d : String) : d.push '/' = d ++ "/" := by
  apply String.ext
  simp

theorem string_back_push (d : String) (c : Char) : string_back (d.push c) = some c := by
  unfold string_back
  simp

namespace EnsembleExp

/-- The constructor body in one step: every statement before the data
directory is closed, collected into the object they produce. -/
theorem construct_eq (config : EnsembleConfig) :
    construct config =
      (close_directory config.DATA_DIRECTORY).map (fun d =>
        { RUN_MODE := some config.RUN_MODE
          RANDOM_SEED := some config.RANDOM_SEED
          POP_SIZE := some config.POP_SIZE
          GENERATIONS := some config.GENERATIONS
          EVAL_TIME := some config.EVAL_TIME
          SELECTION_METHOD := some config.SELECTION_METHOD
          ELITE_SELECT__ELITE_CNT := some config.ELITE_SELECT__ELITE_CNT
          TOURNAMENT_SIZE := some config.TOURNAMENT_SIZE
          OTHELLO_HW_BOARDS := some config.OTHELLO_HW_BOARDS
          SGP_FUNCTION_LEN := some config.SGP_FUNCTION_LEN
          SGP_FUNCTION_CNT := some config.SGP_FUNCTION_CNT
          SGP_PROG_MAX_LENGTH := some config.SGP_PROG_MAX_LENGTH
          SGP_HW_MAX_CORES := some config.SGP_HW_MAX_CORES
          SGP_HW_MAX_CALL_DEPTH := some config.SGP_HW_MAX_CALL_DEPTH
          SGP_HW_MIN_BIND_THRESH := some config.SGP_HW_MIN_BIND_THRESH
          SGP_PROG_MAX_ARG_VAL := some config.SGP_PROG_MAX_ARG_VAL
          SGP_PER_BIT__TAG_BFLIP_RATE := some config.SGP_PER_BIT__TAG_BFLIP_RATE
          SGP_PER_INST__SUB_RATE := some config.SGP_PER_INST__SUB_RATE
          SGP_VARIABLE_LENGTH := some config.SGP_VARIABLE_LENGTH
          SGP_PER_INST__INS_RATE := some config.SGP_PER_INST__INS_RATE
          SGP_PER_INST__DEL_RATE := some config.SGP_PER_INST__DEL_RATE
          SGP_PER_FUNC__FUNC_DUP_RATE := some config.SGP_PER_FUNC__FUNC_DUP_RATE
          SGP_PER_FUNC__FUNC_DEL_RATE := some config.SGP_PER_FUNC__FUNC_DEL_RATE
          SYSTEMATICS_INTERVAL := none
          FITNESS_INTERVAL := some config.FITNESS_INTERVAL
          POP_SNAPSHOT_INTERVAL := some config.POP_SNAPSHOT_INTERVAL
          DATA_DIRECTORY := d
          random := some (some config.RANDOM_SEED)
          update := 0
          eval_time := 0
          OTHELLO_MAX_ROUND_CNT := size_sub (size_mul OTHELLO_BOARD_WIDTH OTHELLO_BOARD_WIDTH) 4
          best_agent_id := 0
          othello_dreamware := some 1
          sgp_world := some "SGP-Ensemble-World"
          sgp_inst_lib := some ()
          sgp_event_lib := some ()
          sgp_eval_hw := none }) := by
  unfold construct
  dsimp only [entry]
  cases close_directory config.DATA_DIRECTORY <;> rfl

/-- Closing a non-empty directory name succeeds. -/
theorem close_directory_of_ne (d : String) (h : d ≠ "") :
    close_directory d = some (if string_back d = some '/' then d else d ++ "/") := by
  unfold close_directory
  cases hb : string_back d with
  | none => exact absurd ((string_back_eq_none_iff d).1 hb) h
  | some c =>
    by_cases hc : c = '/'
    · simp [hc]
    · simp [hc, string_push_slash]

/-- Closing fails exactly on the empty name. -/
theorem close_directory_eq_none_iff (d : String) : close_directory d = none ↔ d = "" := by
  constructor
  · intro h
    by_contra hne
    rw [close_directory_of_ne d hne] at h
    exact Option.noConfusion h
  · intro h
    subst h
    rfl

/-- The constructor finishes on every configuration with a non-empty directory name. -/
theorem construct_isSome (config : EnsembleConfig) (h : config.DATA_DIRECTORY ≠ "") :
    ∃ e, construct config = some e := by
  rw [construct_eq, close_directory_of_ne _ h]
  exact ⟨_, rfl⟩

end EnsembleExp

/-- The object the constructor produces from `sampleConfig`. -/
def sampleExp : EnsembleExp :=
  { RUN_MODE := some 0, RANDOM_SEED := some (-1), POP_SIZE := some 1000,
    GENERATIONS := some 100, EVAL_TIME := some 256, SELECTION_METHOD := some 1,
    ELITE_SELECT__ELITE_CNT := some 1, TOURNAMENT_SIZE := some 4,
    OTHELLO_HW_BOARDS := some 2, SGP_FUNCTION_LEN := some 50,
    SGP_FUNCTION_CNT := some 4, SGP_PROG_MAX_LENGTH := some 200,
    SGP_HW_MAX_CORES := some 16, SGP_HW_MAX_CALL_DEPTH := some 128,
    SGP_HW_MIN_BIND_THRESH := some ⟨0⟩, SGP_PROG_MAX_ARG_VAL := some 16,
    SGP_PER_BIT__TAG_BFLIP_RATE := some ⟨1⟩, SGP_PER_INST__SUB_RATE := some ⟨2⟩,
    SGP_VARIABLE_LENGTH := some true, SGP_PER_INST__INS_RATE := some ⟨3⟩,
    SGP_PER_INST__DEL_RATE := some ⟨4⟩, SGP_PER_FUNC__FUNC_DUP_RATE := some ⟨5⟩,
    SGP_PER_FUNC__FUNC_DEL_RATE := some ⟨6⟩, SYSTEMATICS_INTERVAL := none,
    FITNESS_INTERVAL := some 10, POP_SNAPSHOT_INTERVAL := some 50,
    DATA_DIRECTORY := "out/", random := some (some (-1)),
    update := 0, eval_time := 0, OTHELLO_MAX_ROUND_CNT := 60, best_agent_id := 0,
    othello_dreamware := some 1, sgp_world := some "SGP-Ensemble-World",
    sgp_inst_lib := some (), sgp_event_lib := some (), sgp_eval_hw := none }

/-! ## C1: `Run` and the generation counter -/

/-- C1, refuted as stated: on `sampleConfig` (GENERATIONS = 100) the constructor
yields `sampleExp`, and after `Run` the counter `update` is 0, which does not
exceed GENERATIONS. -/
theorem Run_update_not_past_GENERATIONS :
    EnsembleExp.construct sampleConfig = some sampleExp ∧
    sampleConfig.GENERATIONS = 100 ∧
    (sampleExp.Run 0 5).1.update = 0 ∧
    ¬ (sampleConfig.GENERATIONS < (sampleExp.Run 0 5).1.update) := by
  refine ⟨by rfl, by rfl, by rfl, by decide⟩

/-- C1, amended: the constructor finishes on every configuration with a
non-empty directory name, and whenever it finishes `Run` returns with the
object unchanged for every pair of clock readings; the counter `update` is
still 0, GENERATIONS still holds the configured value, and `update` does not
exceed it. -/
theorem Run_leaves_update (config : EnsembleConfig) :
    (config.DATA_DIRECTORY ≠ "" → ∃ e, EnsembleExp.construct config = some e) ∧
    ∀ e, EnsembleExp.construct config = some e → ∀ clock_start clock_end : Int,
      (e.Run clock_start clock_end).1 = e ∧
      (e.Run clock_start clock_end).1.update = 0 ∧
      (e.Run clock_start clock_end).1.GENERATIONS = some config.GENERATIONS ∧
      ¬ (config.GENERATIONS < (e.Run clock_start clock_end).1.update) := by
  refine ⟨EnsembleExp.construct_isSome config, ?_⟩
  intro e h clock_start clock_end
  rw [EnsembleExp.construct_eq] at h
  cases hd : EnsembleExp.close_directory config.DATA_DIRECTORY with
  | none => rw [hd] at h; exact Option.noConfusion h
  | some d =>
    rw [hd] at h
    simp only [Option.map_some', Option.some.injEq] at h
    subst h
    simp [EnsembleExp.Run]

theorem Run_leaves_update_witness :
    sampleConfig.DATA_DIRECTORY ≠ "" ∧
    EnsembleExp.construct sampleConfig = some sampleExp ∧
    (sampleExp.Run 0 5).1 = sampleExp ∧
    (sampleExp.Run 0 5).1.update = 0 :=
  ⟨by decide, by rfl,
    ((Run_leaves_update sampleConfig).2 sampleExp (by rfl) 0 5).1,
    ((Run_leaves_update sampleConfig).2 sampleExp (by rfl) 0 5).2.1⟩

/-! ## C2: the round cap -/

/-- C2: the constructor finishes on every configuration with a non-empty
directory name, and whenever it finishes OTHELLO_MAX_ROUND_CNT equals
OTHELLO_BOARD_NUM_CELLS - 4 = 8 * 8 - 4 = 60, whatever the options are. -/
theorem construct_OTHELLO_MAX_ROUND_CNT (config : EnsembleConfig) :
    (config.DATA_DIRECTORY ≠ "" → ∃ e, EnsembleExp.construct config = some e) ∧
    ∀ e, EnsembleExp.construct config = some e →
      e.OTHELLO_MAX_ROUND_CNT = size_sub OTHELLO_BOARD_NUM_CELLS 4 ∧
      OTHELLO_BOARD_NUM_CELLS = 8 * 8 ∧
      e.OTHELLO_MAX_ROUND_CNT = 8 * 8 - 4 ∧
      e.OTHELLO_MAX_ROUND_CNT = 60 := by
  refine ⟨EnsembleExp.construct_isSome config, ?_⟩
  intro e h
  rw [EnsembleExp.construct_eq] at h
  cases hd : EnsembleExp.close_directory config.DATA_DIRECTORY with
  | none => rw [hd] at h; exact Option.noConfusion h
  | some d =>
    rw [hd] at h
    simp only [Option.map_some', Option.some.injEq] at h
    subst h
    exact ⟨rfl, by decide, rfl, rfl⟩

theorem construct_OTHELLO_MAX_ROUND_CNT_witness :
    sampleConfig.DATA_DIRECTORY ≠ "" ∧
    EnsembleExp.construct sampleConfig = some sampleExp ∧
    sampleExp.OTHELLO_MAX_ROUND_CNT = 60 :=
  ⟨by decide, by rfl,
    ((construct_OTHELLO_MAX_ROUND_CNT sampleConfig).2 sampleExp (by rfl)).2.2.2⟩

/-! ## C3: the data-collection intervals -/

/-- C3, evaluated: on `sampleConfig`, whose SYSTEMATICS_INTERVAL option is 100,
the constructor yields `sampleExp`, in which FITNESS_INTERVAL and
POP_SNAPSHOT_INTERVAL hold the configured 10 and 50 while SYSTEMATICS_INTERVAL
was never written and so does not hold the configured 100; and on no
configuration does the constructed object hold a value in SYSTEMATICS_INTERVAL. -/
theorem construct_SYSTEMATICS_INTERVAL_unwritten :
    (EnsembleExp.construct sampleConfig = some sampleExp ∧
      sampleConfig.SYSTEMATICS_INTERVAL = 100 ∧
      sampleExp.SYSTEMATICS_INTERVAL = none ∧
      sampleExp.SYSTEMATICS_INTERVAL ≠ some sampleConfig.SYSTEMATICS_INTERVAL ∧
      sampleExp.FITNESS_INTERVAL = some sampleConfig.FITNESS_INTERVAL ∧
      sampleExp.POP_SNAPSHOT_INTERVAL = some sampleConfig.POP_SNAPSHOT_INTERVAL) ∧
    ∀ config : EnsembleConfig,
      (EnsembleExp.construct config).bind (fun e => e.SYSTEMATICS_INTERVAL) = none := by
  refine ⟨⟨by rfl, by rfl, by rfl, by decide, by rfl, by rfl⟩, ?_⟩
  intro config
  rw [EnsembleExp.construct_eq]
  cases EnsembleExp.close_directory config.DATA_DIRECTORY <;> rfl

/-! ## C4: the exit status of `main` -/

/-- C4, refuted as stated: when `ProcessConfigOptions` reports failure, and
when `TestUnknown` does, `main` calls `exit(0)` and the exit status is 0. -/
theorem main_failure_status_zero :
    ensemble.main false true = .exited 0 ∧
    ¬ ((ensemble.main false true).status ≠ 0) ∧
    ensemble.main true false = .exited 0 ∧
    ¬ ((ensemble.main true false).status ≠ 0) := by
  refine ⟨by rfl, by decide, by rfl, by decide⟩

/-- C4, amended: the exit status is 0 whatever the two calls return; `main`
reaches the end of its body exactly when both succeed and otherwise leaves
through `exit(0)`. -/
theorem main_status (ProcessConfigOptions TestUnknown : Bool) :
    (ensemble.main ProcessConfigOptions TestUnknown).status = 0 ∧
    (ensemble.main ProcessConfigOptions TestUnknown = .completed ↔
      (ProcessConfigOptions = true ∧ TestUnknown = true)) ∧
    (ensemble.main ProcessConfigOptions TestUnknown = .exited 0 ↔
      (ProcessConfigOptions = false ∨ TestUnknown = false)) := by
  cases ProcessConfigOptions <;> cases TestUnknown <;> decide

/-! ## C5 and C6: marker and view codes -/

/-- C5: the row markers are DARK = 1, LIGHT = -1 and OPEN = 0; they are
pairwise distinct, so every marker value occurs at most once among them. -/
theorem TESTCASE_FILE_markers :
    TESTCASE_FILE__DARK_ID = 1 ∧ TESTCASE_FILE__LIGHT_ID = -1 ∧ TESTCASE_FILE__OPEN_ID = 0 ∧
    TESTCASE_FILE__DARK_ID ≠ TESTCASE_FILE__LIGHT_ID ∧
    TESTCASE_FILE__DARK_ID ≠ TESTCASE_FILE__OPEN_ID ∧
    TESTCASE_FILE__LIGHT_ID ≠ TESTCASE_FILE__OPEN_ID ∧
    TESTCASE_FILE__IDS.Nodup ∧
    ∀ m : Int, TESTCASE_FILE__IDS.count m ≤ 1 := by
  have hnd : TESTCASE_FILE__IDS.Nodup := by decide
  refine ⟨by rfl, by rfl, by rfl, by decide, by decide, by decide, hnd, ?_⟩
  intro m
  exact List.nodup_iff_count_le_one.1 hnd m

/-- C6: the view codes are ILLEGAL = -1, OPEN = 0, SELF = 1 and OPP = 2; there
are four of them, pairwise distinct, so every code occurs at most once. -/
theorem AGENT_VIEW_codes :
    AGENT_VIEW__ILLEGAL_ID = -1 ∧ AGENT_VIEW__OPEN_ID = 0 ∧
    AGENT_VIEW__SELF_ID = 1 ∧ AGENT_VIEW__OPP_ID = 2 ∧
    AGENT_VIEW__IDS.length = 4 ∧
    AGENT_VIEW__ILLEGAL_ID ≠ AGENT_VIEW__OPEN_ID ∧
    AGENT_VIEW__ILLEGAL_ID ≠ AGENT_VIEW__SELF_ID ∧
    AGENT_VIEW__ILLEGAL_ID ≠ AGENT_VIEW__OPP_ID ∧
    AGENT_VIEW__OPEN_ID ≠ AGENT_VIEW__SELF_ID ∧
    AGENT_VIEW__OPEN_ID ≠ AGENT_VIEW__OPP_ID ∧
    AGENT_VIEW__SELF_ID ≠ AGENT_VIEW__OPP_ID ∧
    AGENT_VIEW__IDS.Nodup ∧
    ∀ c : Int, AGENT_VIEW__IDS.count c ≤ 1 := by
  have hnd : AGENT_VIEW__IDS.Nodup := by decide
  refine ⟨by rfl, by rfl, by rfl, by rfl, by rfl, by decide, by decide, by decide,
    by decide, by decide, by decide, hnd, ?_⟩
  intro c
  exact List.nodup_iff_count_le_one.1 hnd c

/-! ## C7 and C8: agents -/

/-- C7: `SetID n` replaces `agent_id` by `n` and nothing else: afterwards
`GetID` reads `n` and `GetGenome` is the program it was; `GetID` leaves the
agent as it is, before and after the update. -/
theorem SetID_frame (a : SignalGPAgent) (n : Nat) :
    a.SetID n = { program := a.program, agent_id := some n } ∧
    (a.SetID n).GetID.1 = some n ∧
    (a.SetID n).GetGenome = a.GetGenome ∧
    (a.SetID n).program = a.program ∧
    a.GetID.2 = a ∧
    (a.SetID n).GetID.2 = a.SetID n :=
  ⟨rfl, rfl, rfl, rfl, rfl, rfl⟩

/-- C8: copy-constructing and move-constructing from the agent `a` at address
`src` both succeed and place at a fresh address an agent with the program and
the `GetID` of `a`; every agent already in the store, `a` included, is
unchanged; and a later `SetID` on the new agent sets its identifier and still
leaves every earlier agent, `a` included, unchanged. -/
theorem construct_from_agent (st : AgentStore) (src : Nat) (a : SignalGPAgent)
    (h : st[src]? = some a) :
    (∃ st1 dst b, st.construct_copy src = some (st1, dst) ∧ dst ≠ src ∧
      st1[dst]? = some b ∧ b.GetGenome = a.GetGenome ∧ b.GetID.1 = a.GetID.1 ∧
      st1[src]? = some a ∧ (∀ i, i < st.length → st1[i]? = st[i]?) ∧
      ∀ n, (st1.call_SetID dst n)[src]? = some a ∧
        (st1.call_SetID dst n)[dst]? = some (b.SetID n) ∧
        ∀ i, i < st.length → (st1.call_SetID dst n)[i]? = st[i]?) ∧
    (∃ st1 dst b, st.construct_move src = some (st1, dst) ∧ dst ≠ src ∧
      st1[dst]? = some b ∧ b.GetGenome = a.GetGenome ∧ b.GetID.1 = a.GetID.1 ∧
      st1[src]? = some a ∧ (∀ i, i < st.length → st1[i]? = st[i]?) ∧
      ∀ n, (st1.call_SetID dst n)[src]? = some a ∧
        (st1.call_SetID dst n)[dst]? = some (b.SetID n) ∧
        ∀ i, i < st.length → (st1.call_SetID dst n)[i]? = st[i]?) := by
  have hlt : src < st.length := by
    by_contra hge
    rw [List.getElem?_eq_none (Nat.le_of_not_lt hge)] at h
    exact Option.noConfusion h
  have hne : st.length ≠ src := Nat.ne_of_gt hlt
  have key : ∀ b : SignalGPAgent, b.program = a.program → b.agent_id = a.agent_id →
      (st ++ [b])[st.length]? = some b ∧ b.GetGenome = a.GetGenome ∧ b.GetID.1 = a.GetID.1 ∧
      (st ++ [b])[src]? = some a ∧ (∀ i, i < st.length → (st ++ [b])[i]? = st[i]?) ∧
      ∀ n, (AgentStore.call_SetID (st ++ [b]) st.length n)[src]? = some a ∧
        (AgentStore.call_SetID (st ++ [b]) st.length n)[st.length]? = some (b.SetID n) ∧
        ∀ i, i < st.length → (AgentStore.call_SetID (st ++ [b]) st.length n)[i]? = st[i]? := by
    intro b hp hi
    have hold : ∀ i, i < st.length → (st ++ [b])[i]? = st[i]? := fun i hi =>
      List.getElem?_append_left hi
    have hnew : (st ++ [b])[st.length]? = some b := by simp
    have hset : ∀ n, AgentStore.call_SetID (st ++ [b]) st.length n
        = (st ++ [b]).set st.length (b.SetID n) := by
      intro n
      unfold AgentStore.call_SetID
      rw [hnew]
    have hafter : ∀ n i, i < st.length →
        (AgentStore.call_SetID (st ++ [b]) st.length n)[i]? = st[i]? := by
      intro n i hi
      rw [hset, List.getElem?_set_ne (Nat.ne_of_gt hi), hold i hi]
    refine ⟨hnew, hp, hi, (hold src hlt).trans h, hold, ?_⟩
    intro n
    refine ⟨(hafter n src hlt).trans h, ?_, hafter n⟩
    rw [hset, List.getElem?_set_self]
    simp
  constructor
  · refine ⟨st ++ [SignalGPAgent.copyFrom a], st.length, SignalGPAgent.copyFrom a, ?_, hne, ?_⟩
    · unfold AgentStore.construct_copy
      rw [h]
    · exact key _ rfl rfl
  · refine ⟨st ++ [SignalGPAgent.moveFrom a], st.length, SignalGPAgent.moveFrom a, ?_, hne, ?_⟩
    · unfold AgentStore.construct_move
      rw [h]
    · exact key _ rfl rfl

theorem construct_from_agent_witness :
    [sampleAgent][0]? = some sampleAgent ∧
    AgentStore.construct_copy [sampleAgent] 0 = some ([sampleAgent, sampleAgent], 1) ∧
    (AgentStore.call_SetID [sampleAgent, sampleAgent] 1 9)[0]? = some sampleAgent ∧
    (AgentStore.call_SetID [sampleAgent, sampleAgent] 1 9)[1]? = some (sampleAgent.SetID 9) := by
  obtain ⟨st1, dst, b, hc, _, hb, _, _, _, _, hset⟩ :=
    (construct_from_agent [sampleAgent] 0 sampleAgent (by rfl)).1
  have hev : AgentStore.construct_copy [sampleAgent] 0
      = some ([sampleAgent, sampleAgent], 1) := by rfl
  rw [hev] at hc
  simp only [Option.some.injEq, Prod.mk.injEq] at hc
  obtain ⟨h1, h2⟩ := hc
  subst h1
  subst h2
  have hb1 : b = sampleAgent := by
    have : [sampleAgent, sampleAgent][1]? = some sampleAgent := by rfl
    rw [this] at hb
    exact (Option.some.inj hb).symm
  subst hb1
  exact ⟨by rfl, hev, (hset 9).1, (hset 9).2.1⟩

/-! ## C9: the options are stored verbatim -/

/-- C9: the constructor finishes on every configuration with a non-empty
directory name, and whenever it finishes each of the listed members holds
exactly the value of the option of the same name. -/
theorem construct_stores_options (config : EnsembleConfig) :
    (config.DATA_DIRECTORY ≠ "" → ∃ e, EnsembleExp.construct config = some e) ∧
    ∀ e, EnsembleExp.construct config = some e →
      e.RUN_MODE = some config.RUN_MODE ∧
      e.RANDOM_SEED = some config.RANDOM_SEED ∧
      e.POP_SIZE = some config.POP_SIZE ∧
      e.GENERATIONS = some config.GENERATIONS ∧
      e.EVAL_TIME = some config.EVAL_TIME ∧
      e.SELECTION_METHOD = some config.SELECTION_METHOD ∧
      e.ELITE_SELECT__ELITE_CNT = some config.ELITE_SELECT__ELITE_CNT ∧
      e.TOURNAMENT_SIZE = some config.TOURNAMENT_SIZE ∧
      e.OTHELLO_HW_BOARDS = some config.OTHELLO_HW_BOARDS ∧
      e.SGP_FUNCTION_LEN = some config.SGP_FUNCTION_LEN ∧
      e.SGP_FUNCTION_CNT = some config.SGP_FUNCTION_CNT ∧
      e.SGP_PROG_MAX_LENGTH = some config.SGP_PROG_MAX_LENGTH ∧
      e.SGP_HW_MAX_CORES = some config.SGP_HW_MAX_CORES ∧
      e.SGP_HW_MAX_CALL_DEPTH = some config.SGP_HW_MAX_CALL_DEPTH ∧
      e.SGP_HW_MIN_BIND_THRESH = some config.SGP_HW_MIN_BIND_THRESH ∧
      e.SGP_PROG_MAX_ARG_VAL = some config.SGP_PROG_MAX_ARG_VAL ∧
      e.SGP_PER_BIT__TAG_BFLIP_RATE = some config.SGP_PER_BIT__TAG_BFLIP_RATE ∧
      e.SGP_PER_INST__SUB_RATE = some config.SGP_PER_INST__SUB_RATE ∧
      e.SGP_VARIABLE_LENGTH = some config.SGP_VARIABLE_LENGTH ∧
      e.SGP_PER_INST__INS_RATE = some config.SGP_PER_INST__INS_RATE ∧
      e.SGP_PER_INST__DEL_RATE = some config.SGP_PER_INST__DEL_RATE ∧
      e.SGP_PER_FUNC__FUNC_DUP_RATE = some config.SGP_PER_FUNC__FUNC_DUP_RATE ∧
      e.SGP_PER_FUNC__FUNC_DEL_RATE = some config.SGP_PER_FUNC__FUNC_DEL_RATE := by
  refine ⟨EnsembleExp.construct_isSome config, ?_⟩
  intro e h
  rw [EnsembleExp.construct_eq] at h
  cases hd : EnsembleExp.close_directory config.DATA_DIRECTORY with
  | none => rw [hd] at h; exact Option.noConfusion h
  | some d =>
    rw [hd] at h
    simp only [Option.map_some', Option.some.injEq] at h
    subst h
    exact ⟨rfl, rfl, rfl, rfl, rfl, rfl, rfl, rfl, rfl, rfl, rfl, rfl, rfl, rfl, rfl, rfl,
      rfl, rfl, rfl, rfl, rfl, rfl, rfl⟩

theorem construct_stores_options_witness :
    sampleConfig.DATA_DIRECTORY ≠ "" ∧
    EnsembleExp.construct sampleConfig = some sampleExp ∧
    sampleExp.RUN_MODE = some sampleConfig.RUN_MODE ∧
    sampleExp.RANDOM_SEED = some sampleConfig.RANDOM_SEED ∧
    sampleExp.POP_SIZE = some sampleConfig.POP_SIZE :=
  ⟨by decide, by rfl,
    ((construct_stores_options sampleConfig).2 sampleExp (by rfl)).1,
    ((construct_stores_options sampleConfig).2 sampleExp (by rfl)).2.1,
    ((construct_stores_options sampleConfig).2 sampleExp (by rfl)).2.2.1⟩

/-! ## C10: the data directory -/

/-- C10: on a configuration whose DATA_DIRECTORY option `d` is non-empty the
constructor finishes; the stored DATA_DIRECTORY ends with a slash, is `d` when
`d` ends with a slash and `d` followed by one slash otherwise; closing the
stored name again returns it unchanged, and constructing from the same
configuration with the stored name as its directory yields the same object. -/
theorem construct_DATA_DIRECTORY (config : EnsembleConfig)
    (h : config.DATA_DIRECTORY ≠ "") :
    ∃ e, EnsembleExp.construct config = some e ∧
      string_back e.DATA_DIRECTORY = some '/' ∧
      (string_back config.DATA_DIRECTORY = some '/' →
        e.DATA_DIRECTORY = config.DATA_DIRECTORY) ∧
      (string_back config.DATA_DIRECTORY ≠ some '/' →
        e.DATA_DIRECTORY = config.DATA_DIRECTORY ++ "/") ∧
      EnsembleExp.close_directory e.DATA_DIRECTORY = some e.DATA_DIRECTORY ∧
      EnsembleExp.construct { config with DATA_DIRECTORY := e.DATA_DIRECTORY } = some e := by
  have hslash : ∀ s : String, string_back s = some '/' →
      EnsembleExp.close_directory s = some s := by
    intro s hs
    unfold EnsembleExp.close_directory
    rw [hs]
    simp
  obtain ⟨e, he⟩ := EnsembleExp.construct_isSome config h
  have hdir : ∀ d, EnsembleExp.close_directory config.DATA_DIRECTORY = some d →
      e.DATA_DIRECTORY = d ∧
      (EnsembleExp.close_directory d = some d →
        EnsembleExp.construct { config with DATA_DIRECTORY := d } = some e) := by
    intro d hd
    have he2 := he
    rw [EnsembleExp.construct_eq, hd] at he2
    simp only [Option.map_some', Option.some.injEq] at he2
    refine ⟨by rw [← he2], ?_⟩
    intro hdd
    rw [EnsembleExp.construct_eq]
    simp only [hdd, Option.map_some']
    rw [← he2]
  refine ⟨e, he, ?_⟩
  by_cases hb : string_back config.DATA_DIRECTORY = some '/'
  · have hc := hslash _ hb
    obtain ⟨hd1, hd2⟩ := hdir _ hc
    rw [hd1]
    exact ⟨hb, fun _ => rfl, fun hn => absurd hb hn, hc, hd2 hc⟩
  · have hc : EnsembleExp.close_directory config.DATA_DIRECTORY
        = some (config.DATA_DIRECTORY ++ "/") := by
      rw [EnsembleExp.close_directory_of_ne _ h, if_neg hb]
    have hb2 : string_back (config.DATA_DIRECTORY ++ "/") = some '/' := by
      rw [← string_push_slash]
      exact string_back_push _ _
    obtain ⟨hd1, hd2⟩ := hdir _ hc
    rw [hd1]
    exact ⟨hb2, fun hs => absurd hs hb, fun _ => rfl, hslash _ hb2, hd2 (hslash _ hb2)⟩

theorem construct_DATA_DIRECTORY_witness :
    sampleConfig.DATA_DIRECTORY ≠ "" ∧
    EnsembleExp.construct sampleConfig = some sampleExp ∧
    sampleExp.DATA_DIRECTORY = "out/" ∧
    string_back sampleExp.DATA_DIRECTORY = some '/' := by
  obtain ⟨e, he, hb, _⟩ := construct_DATA_DIRECTORY sampleConfig (by decide)
  have hev : EnsembleExp.construct sampleConfig = some sampleExp := by rfl
  rw [hev] at he
  have hee : sampleExp = e := Option.some.inj he
  subst hee
  exact ⟨by decide, hev, rfl, hb⟩
